import Mathlib

/-!
Verification of the simulation engine of the Space-Rising game
(canonical richest variant, `src/unnamed/part_000`).

The engine is shallowly embedded over the rationals `ℚ` (the source uses
JS numbers; all claims under scrutiny are structural/ordering facts, so the
exact-arithmetic model over `ℚ` is faithful to the source formulas).
Transcendental helpers of the source (`Math.sin`, `Math.sqrt`) and the
unseeded random draws (`Math.random`) are supplied as oracle inputs: the
corresponding parameters carry the value the source would compute, and
theorems that depend on them constrain them by hypotheses.
-/

/-- `GRAVITY = 0.08` from the source header. -/
def GRAVITY : ℚ := 2/25

/-- `JUMP_FORCE = -6.0` from the source header. -/
def JUMP_FORCE : ℚ := -6

/-- `SUPER_JUMP_FORCE = -10.0` from the source header. -/
def SUPER_JUMP_FORCE : ℚ := -10

/-- `FRICTION = 0.98` from the source header. -/
def FRICTION : ℚ := 49/50

/-- `ACCEL = 0.15` from the source header. -/
def ACCEL : ℚ := 3/20

/-- The steer-input snapshot `{left, right}` read at the top of a tick. -/
structure Input where
  left : Bool
  right : Bool
deriving DecidableEq

/-- The `Player` class: position, velocity, fixed half-extents, visual
rotation and the double-jump charge flag. -/
structure Player where
  x : ℚ
  y : ℚ
  vx : ℚ
  vy : ℚ
  width : ℚ := 20
  height : ℚ := 30
  rotation : ℚ := 0
  hasDoubleJump : Bool := false
deriving DecidableEq

/-- `Player.update`: steer acceleration, friction, velocity cap at ±5,
position advance, gravity, and the derived visual rotation. -/
def Player.update (p : Player) (input : Input) : Player :=
  let vx := if input.left then p.vx - ACCEL else p.vx
  let vx := if input.right then vx + ACCEL else vx
  let vx := vx * FRICTION
  let vx := if vx > 5 then 5 else vx
  let vx := if vx < -5 then -5 else vx
  { p with
    x := p.x + vx
    y := p.y + p.vy
    vx := vx
    vy := p.vy + GRAVITY
    rotation := vx * (1/20) }

/-- The platform type tags of the source. -/
inductive PlatformType where
  | NORMAL
  | BOOST
  | DOUBLE_JUMP_CHARGER
  | MOVING
  | BREAKABLE
  | PHANTOM
  | SHRINKING
  | START
deriving DecidableEq

/-- The `Platform` class (simulation-relevant fields; the purely visual
crater/stripe/seed data is omitted as it never feeds back into physics). -/
structure Platform where
  x : ℚ
  y : ℚ
  radius : ℚ
  type : PlatformType
  vx : ℚ := 0
  broken : Bool := false
  phantomPhase : ℚ := 0
  opacity : ℚ := 1
  shrinkRate : ℚ := 1/20
  rotationAngle : ℚ := 0
deriving DecidableEq

/-- `Platform.update`: per-type self-update rule.  `sinVal` is the oracle
value for `Math.sin(this.phantomPhase)` after the phase advance (only the
PHANTOM branch reads it). -/
def Platform.update (p : Platform) (width : ℚ) (sinVal : ℚ) : Platform :=
  let q := { p with rotationAngle := p.rotationAngle + 3/1000 }
  match p.type with
  | PlatformType.MOVING =>
      let q := { q with x := q.x + q.vx }
      let q := if q.x < q.radius then { q with x := q.radius, vx := -q.vx } else q
      if q.x > width - q.radius then { q with x := width - q.radius, vx := -q.vx } else q
  | PlatformType.PHANTOM =>
      let q := { q with phantomPhase := q.phantomPhase + 3/200 }
      if sinVal > -1/5 then { q with opacity := 1 } else { q with opacity := 1/5 }
  | PlatformType.SHRINKING =>
      let q := { q with radius := q.radius - q.shrinkRate }
      if q.radius < 0 then { q with radius := 0 } else q
  | _ => q

/-- `Platform.isCollidable`: broken, faded Phantom and shrunken Shrinking
platforms are non-collidable. -/
def Platform.isCollidable (p : Platform) : Bool :=
  if p.broken then false
  else if p.type = PlatformType.PHANTOM ∧ p.opacity < 1/2 then false
  else if p.type = PlatformType.SHRINKING ∧ p.radius < 10 then false
  else true

/-- The obstacle (hazard) type tags of the source. -/
inductive ObstacleType where
  | UFO
  | BLACK_HOLE
deriving DecidableEq

/-- The `Obstacle` class. -/
structure Obstacle where
  x : ℚ
  y : ℚ
  radius : ℚ
  type : ObstacleType
  vx : ℚ := 0
  angle : ℚ := 0
deriving DecidableEq

/-- `Obstacle.update`: angle advance; UFO drift, hover and wall bounce.
`sinVal` is the oracle value for `Math.sin(this.angle)` after the advance. -/
def Obstacle.update (o : Obstacle) (width : ℚ) (sinVal : ℚ) : Obstacle :=
  let q := { o with angle := o.angle + 1/50 }
  match o.type with
  | ObstacleType.UFO =>
      let q := { q with x := q.x + q.vx, y := q.y + sinVal * (1/5) }
      let q := if q.x < q.radius then { q with x := q.radius, vx := -q.vx } else q
      if q.x > width - q.radius then { q with x := width - q.radius, vx := -q.vx } else q
  | ObstacleType.BLACK_HOLE => q

/-- A cosmetic particle of the effect system. -/
structure Particle where
  x : ℚ
  y : ℚ
  vx : ℚ
  vy : ℚ
  life : ℚ
  maxLife : ℚ
  size : ℚ
deriving DecidableEq

/-- A background star (parallax layer); named `BgStar` here because `Star`
already denotes the star operation in Mathlib. -/
structure BgStar where
  x : ℚ
  y : ℚ
  size : ℚ
  alpha : ℚ
  speed : ℚ
  phase : ℚ
deriving DecidableEq

/-- Discrete effect tags emitted during a tick (explosion spawns plus sound
cues in the source). -/
inductive Effect where
  | Landed
  | Boosted
  | PoweredUp
  | Broke
  | DoubleJumped
  | Knockback
  | Destroyed
deriving DecidableEq, BEq

/-- `triggerDoubleJump` (body of the PLAYING-state guard): accepted when the
charge flag is set and `vy > -3`; sets `vy := JUMP_FORCE * 1.2`, clears the
flag and emits the double-jump effect; otherwise a no-op. -/
def triggerDoubleJump (p : Player) : Player × List Effect :=
  if p.hasDoubleJump ∧ p.vy > -3 then
    ({ p with vy := JUMP_FORCE * (6/5), hasDoubleJump := false },
     [Effect.DoubleJumped])
  else (p, [])

/-- The screen-wrap step of the tick (the `SCREEN_WRAP = true` branch). -/
def screenWrap (p : Player) (width : ℚ) : Player :=
  let q := if p.x < -p.width then { p with x := width + p.width } else p
  if q.x > width + q.width then { q with x := -q.width } else q

/-- The geometric landing test of the collision loop: collidability, the
horizontal extent test, the vertical band, and the swept was-above check
`player.y - player.vy + height/2 <= p.y - 10`.  The START platform uses the
narrower box variant of the source; every other type uses the circle
variant widened by half the player width. -/
def hitTest (player : Player) (p : Platform) : Bool :=
  if p.isCollidable then
    match p.type with
    | PlatformType.START =>
        decide (player.x > p.x - p.radius) &&
        decide (player.x < p.x + p.radius) &&
        decide (player.y + player.height/2 ≥ p.y - 10) &&
        decide (player.y + player.height/2 ≤ p.y + 10) &&
        decide (player.y - player.vy + player.height/2 ≤ p.y - 10)
    | _ =>
        decide (player.x > p.x - p.radius - player.width/2) &&
        decide (player.x < p.x + p.radius + player.width/2) &&
        decide (player.y + player.height/2 ≥ p.y - p.radius) &&
        decide (player.y + player.height/2 ≤ p.y + p.radius) &&
        decide (player.y - player.vy + player.height/2 ≤ p.y - 10)
  else false

/-- The hit branch of the collision loop: base jump impulse plus landing
effect, then the BOOST / DOUBLE_JUMP_CHARGER / BREAKABLE specials in source
order (note the source re-reads `p.type` after the charger may have mutated
it to NORMAL, so a consumed charger never also runs the BREAKABLE branch). -/
def resolveHit (player : Player) (p : Platform) : Player × Platform × List Effect :=
  let player := { player with vy := JUMP_FORCE }
  let player := if p.type = PlatformType.BOOST then { player with vy := SUPER_JUMP_FORCE } else player
  let e1 := if p.type = PlatformType.BOOST then [Effect.Boosted] else []
  let player := if p.type = PlatformType.DOUBLE_JUMP_CHARGER then { player with hasDoubleJump := true } else player
  let e2 := if p.type = PlatformType.DOUBLE_JUMP_CHARGER then [Effect.PoweredUp] else []
  let p1 := if p.type = PlatformType.DOUBLE_JUMP_CHARGER then { p with type := PlatformType.NORMAL } else p
  let p2 := if p1.type = PlatformType.BREAKABLE then { p1 with broken := true } else p1
  let e3 := if p1.type = PlatformType.BREAKABLE then [Effect.Broke] else []
  (player, p2, [Effect.Landed] ++ e1 ++ e2 ++ e3)

/-- One platform of the collision loop: test then resolve. -/
def collisionStep (player : Player) (p : Platform) : Player × Platform × List Effect :=
  if hitTest player p then resolveHit player p else (player, p, [])

/-- The body of the collision loop over the platform list, in list order;
each platform is tested against the player state left by the earlier
platforms (the source `forEach` mutates `player` in place). -/
def collisionPhase (player : Player) : List Platform → Player × List Platform × List Effect
  | [] => (player, [], [])
  | p :: rest =>
      let r := collisionStep player p
      let rec' := collisionPhase r.1 rest
      (rec'.1, r.2.1 :: rec'.2.1, r.2.2 ++ rec'.2.2)

/-- The collision phase of the tick: the loop runs only while the body is
descending (`player.vy > 0`, checked once before the loop). -/
def collisionTick (player : Player) (ps : List Platform) : Player × List Platform × List Effect :=
  if player.vy > 0 then collisionPhase player ps else (player, ps, [])

/-- The gravity-pull branch of the BLACK_HOLE interaction.  `dist` is the
oracle value for `Math.sqrt(dx*dx + dy*dy)` (square roots are irrational in
general); theorems constrain it by `dist * dist = dx^2 + dy^2 ∧ 0 ≤ dist`
where the true distance matters.  Inside the pull radius the inverse-square
force is computed and applied toward the hazard center; the rotation wobble
is added. -/
def blackHolePull (player : Player) (o : Obstacle) (dist : ℚ) : Player :=
  if dist < 250 then
    let dx := player.x - o.x
    let dy := player.y - o.y
    let force := 800 / (dist * dist)
    { player with
      vx := player.vx - dx / dist * force
      vy := player.vy - dy / dist * force
      rotation := player.rotation + 1/10 }
  else player

/-- The full BLACK_HOLE branch of the obstacle loop: the pull (when inside
the pull radius) followed by the event-horizon check `dist < 15`, which
emits a destruction effect and sets the terminal flag. -/
def blackHoleStep (player : Player) (o : Obstacle) (dist : ℚ) : Player × List Effect × Bool :=
  let player := blackHolePull player o dist
  if dist < 15 then (player, [Effect.Destroyed], true) else (player, [], false)

/-- The UFO branch of the obstacle loop: radius-sum proximity test, downward
knockback `vy := 8` and a sideways push away from the hazard center. -/
def ufoStep (player : Player) (o : Obstacle) (dist : ℚ) : Player × List Effect × Bool :=
  if dist < o.radius + player.width then
    ({ player with vy := 8, vx := if player.x - o.x > 0 then 3 else -3 },
     [Effect.Knockback], false)
  else (player, [], false)

/-- The random / transcendental draws a tick consumes, supplied as oracles:
`sinPlat i` and `sinObs i` are the sine values read by the i-th platform /
obstacle update, `distObs i` the square-root distance for the i-th obstacle,
`starX i` the respawn x for the i-th star, `spacing` the `70 + random*40`
draw, and `genPlat y score` / `genObs y score` the entities built by
`generatePlatform` (whose type/position draws are all random). -/
structure Oracle where
  sinPlat : ℕ → ℚ
  sinObs : ℕ → ℚ
  distObs : ℕ → ℚ
  starX : ℕ → ℚ
  spacing : ℚ
  genPlat : ℚ → ℚ → Platform
  genObs : ℚ → ℚ → Option Obstacle

/-- The obstacle loop of the tick: per obstacle, self-update then the
type-dispatched interaction, threading the player state and accumulating
effects and the terminal flag.  `i` indexes the oracle draws. -/
def obstaclePhase (width : ℚ) (orc : Oracle) : ℕ → Player → List Obstacle →
    Player × List Obstacle × List Effect × Bool
  | _, player, [] => (player, [], [], false)
  | i, player, o :: rest =>
      let o := o.update width (orc.sinObs i)
      let step :=
        match o.type with
        | ObstacleType.UFO => ufoStep player o (orc.distObs i)
        | ObstacleType.BLACK_HOLE => blackHoleStep player o (orc.distObs i)
      let rec' := obstaclePhase width orc (i+1) step.1 rest
      (rec'.1, o :: rec'.2.1, step.2.1 ++ rec'.2.2.1, step.2.2 || rec'.2.2.2)

/-- The aggregate world state owned by the tick. -/
structure World where
  player : Player
  platforms : List Platform
  obstacles : List Obstacle
  particles : List Particle
  stars : List BgStar
  score : ℚ
  width : ℚ
  height : ℚ

/-- The star translation of the scroll step: each star moves down by
`diff * speed` (parallax) and a star scrolled past the bottom wraps up by
one screen height and respawns at a random x.  `i` indexes the respawn
draws. -/
def scrollStars (height diff : ℚ) (randX : ℕ → ℚ) : ℕ → List BgStar → List BgStar
  | _, [] => []
  | i, s :: rest =>
      let s1 := { s with y := s.y + diff * s.speed }
      let s2 := if s1.y > height then { s1 with y := s1.y - height, x := randX i } else s1
      s2 :: scrollStars height diff randX (i+1) rest

/-- The generation request at the end of the scroll step: when the topmost
(translated) platform is still below the y=50 buffer, `generatePlatform` is
asked for one more platform at `highest - spacing` (and possibly an
obstacle); otherwise the collections are returned untouched.  (In the
source an empty platform list would make `Math.min(...)` return Infinity
and still generate; the empty case never occurs in a run and is modelled as
a no-op.) -/
def genAfterScroll (orc : Oracle) (score : ℚ)
    (platforms : List Platform) (obstacles : List Obstacle) :
    List Platform × List Obstacle :=
  match (platforms.map Platform.y).min? with
  | some hy =>
      if hy > 50 then
        (platforms ++ [orc.genPlat (hy - orc.spacing) score],
         obstacles ++ (orc.genObs (hy - orc.spacing) score).toList)
      else (platforms, obstacles)
  | none => (platforms, obstacles)

/-- The camera-follow step: when the body is above the 45% line, clamp it
back, translate platforms/obstacles/particles down by the overshoot `diff`,
scroll the stars by `diff * speed` with respawn, accumulate the score by
`diff`, and run the generation request. -/
def cameraScroll (w : World) (orc : Oracle) : World :=
  if w.player.y < w.height * (9/20) then
    let diff := w.height * (9/20) - w.player.y
    let platforms := w.platforms.map (fun p => { p with y := p.y + diff })
    let obstacles := w.obstacles.map (fun o => { o with y := o.y + diff })
    let stars := scrollStars w.height diff orc.starX 0 w.stars
    let particles := w.particles.map (fun p => { p with y := p.y + diff })
    let score := w.score + diff
    let gen := genAfterScroll orc score platforms obstacles
    { w with
      player := { w.player with y := w.height * (9/20) }
      platforms := gen.1
      obstacles := gen.2
      stars := stars
      particles := particles
      score := score }
  else w

/-- One particle decay step: advance by velocity, decrement life by 0.05. -/
def particleStep (p : Particle) : Particle :=
  { p with x := p.x + p.vx, y := p.y + p.vy, life := p.life - 1/20 }

/-- One full simulation tick in source order: body integration, platform
self-updates, the obstacle loop, screen wrap, camera scroll (with
generation), off-screen cleanup, the collision loop, particle decay and the
fall-off-screen terminal check.  Returns the new world, the effects emitted
and the terminal flag.  (Particles spawned by `createExplosion` during the
tick carry random velocities and are purely cosmetic; they are represented
by the effect tags rather than appended to the particle list.) -/
def tick (w : World) (input : Input) (orc : Oracle) : World × List Effect × Bool :=
  let player := w.player.update input
  let platforms := (w.platforms.zip (List.range w.platforms.length)).map
    (fun pi => pi.1.update w.width (orc.sinPlat pi.2))
  let op := obstaclePhase w.width orc 0 player w.obstacles
  let player := screenWrap op.1 w.width
  let w1 : World := { w with player := player, platforms := platforms, obstacles := op.2.1 }
  let w2 := cameraScroll w1 orc
  let w3 : World :=
    { w2 with
      platforms := w2.platforms.filter (fun p => decide (p.y ≤ w.height))
      obstacles := w2.obstacles.filter (fun o => decide (o.y ≤ w.height)) }
  let ct := collisionTick w3.player w3.platforms
  let particles := (w3.particles.map particleStep).filter (fun p => decide (p.life > 0))
  let dead := op.2.2.2 || decide (ct.1.y > w.height)
  ({ w3 with player := ct.1, platforms := ct.2.1, particles := particles },
   op.2.2.1 ++ ct.2.2, dead)


/-- A stationary black hole at the origin (concrete test input). -/
def bhObstacle : Obstacle := { x := 0, y := 0, radius := 40, type := ObstacleType.BLACK_HOLE }

/-- A body at (3,4), i.e. at true distance 5 from `bhObstacle` (concrete
test input). -/
def bhPlayer : Player := { x := 3, y := 4, vx := 0, vy := 0 }

/-- A collidable NORMAL platform at (200,500) with radius 35 (concrete test
input for the overlapping-platform scenario). -/
def ovPlat : Platform := { x := 200, y := 500, radius := 35, type := PlatformType.NORMAL }

/-- A body directly above `ovPlat`, descending with `vy = 10` (concrete
test input for the overlapping-platform scenario). -/
def ovPlayer : Player := { x := 200, y := 460, vx := 0, vy := 10 }

/-- The platform of the spec's no-tunneling scenario: y = 500, radius 30. -/
def ntPlat : Platform := { x := 200, y := 500, radius := 30, type := PlatformType.NORMAL }

/-- The body of the spec's no-tunneling scenario: falling at `vy = 40` from
y = 460, horizontally aligned with `ntPlat`. -/
def ntPlayer : Player := { x := 200, y := 460, vx := 0, vy := 40 }

/-- The no-tunneling body after one integration step with no steer input. -/
def ntPlayerMoved : Player := ntPlayer.update ⟨false, false⟩

/-- A star with parallax speed 1/2 (concrete test input for the scroll
step). -/
def slowStar : BgStar := { x := 10, y := 100, size := 1, alpha := 1, speed := 1/2, phase := 0 }

/-- A fixed oracle: all sine/sqrt/random draws are 0, the spacing draw is
100, generation yields a NORMAL platform and no obstacle (concrete test
input). -/
def zeroOracle : Oracle :=
  { sinPlat := fun _ => 0
    sinObs := fun _ => 0
    distObs := fun _ => 0
    starX := fun _ => 0
    spacing := 100
    genPlat := fun y _ => { x := 0, y := y, radius := 35, type := PlatformType.NORMAL }
    genObs := fun _ _ => none }

/-- A world of viewport 400×800 whose body sits 60 above the scroll line
and whose only scrollable entity is `slowStar` (concrete test input). -/
def starWorld : World :=
  { player := { x := 200, y := 300, vx := 0, vy := 0 }
    platforms := []
    obstacles := []
    particles := []
    stars := [slowStar]
    score := 0
    width := 400
    height := 800 }

/-- A charged body at rest (concrete test input for the double-jump
trigger). -/
def chargedPlayer : Player := { x := 0, y := 0, vx := 0, vy := 0, hasDoubleJump := true }

/-- A DoubleJumpCharger platform (concrete test input). -/
def chargerPlat : Platform := { x := 100, y := 200, radius := 25, type := PlatformType.DOUBLE_JUMP_CHARGER }

/-- A shrinking platform already below the collidable threshold (concrete
test input). -/
def shrunkPlat : Platform :=
  { x := 50, y := 50, radius := 9, type := PlatformType.SHRINKING, shrinkRate := 1/200 }

/-- A body beyond the left wrap bound (concrete test input). -/
def wrapPlayer : Player := { x := -30, y := 0, vx := 2, vy := 0 }

/-- C5: after every body integration step the horizontal velocity is
clamped into [-5, 5] (Vmax = 5), for every starting state and every steer
input — hence for every sequence of steer inputs. -/
theorem C5_velocity_clamp (p : Player) (input : Input) :
    |(p.update input).vx| ≤ 5 := by
  unfold Player.update
  dsimp only
  rw [abs_le]
  split_ifs <;> constructor <;> linarith

/-- C8: the double-jump trigger fires exactly when the charge flag is set
and `vy > -3`; on success it sets `vy` to 1.2 times the base jump force,
clears the flag and emits the double-jump effect; otherwise the body state
is completely unchanged and nothing is emitted. -/
theorem C8_double_jump (p : Player) :
    ((triggerDoubleJump p).2 = [Effect.DoubleJumped] ↔ p.hasDoubleJump = true ∧ p.vy > -3) ∧
    (p.hasDoubleJump = true → p.vy > -3 →
      (triggerDoubleJump p).1 = { p with vy := JUMP_FORCE * (6/5), hasDoubleJump := false }) ∧
    (¬(p.hasDoubleJump = true ∧ p.vy > -3) →
      (triggerDoubleJump p).1 = p ∧ (triggerDoubleJump p).2 = []) := by
  unfold triggerDoubleJump
  split_ifs with h <;> simp_all

/-- Witness for C8 at the concrete charged body at rest. -/
theorem C8_double_jump_witness :
    (triggerDoubleJump chargedPlayer).1 =
      { chargedPlayer with vy := JUMP_FORCE * (6/5), hasDoubleJump := false } :=
  (C8_double_jump chargedPlayer).2.1 rfl (by norm_num [chargedPlayer])

/-- C10: with `SCREEN_WRAP` set, the body wraps horizontally: below the
left wrap bound it reappears at `width + bodyWidth`, past the right wrap
bound at `-bodyWidth`, otherwise x is untouched; in all cases only x
changes (in particular vx is never reflected or clamped). -/
theorem C10_screen_wrap (p : Player) (width : ℚ) (hw : 0 ≤ width) (hpw : 0 < p.width) :
    (p.x < -p.width → (screenWrap p width).x = width + p.width) ∧
    (p.x > width + p.width → (screenWrap p width).x = -p.width) ∧
    (-p.width ≤ p.x → p.x ≤ width + p.width → (screenWrap p width).x = p.x) ∧
    screenWrap p width = { p with x := (screenWrap p width).x } := by
  unfold screenWrap
  dsimp only
  split_ifs with h1 h2 h2 <;>
    refine ⟨fun ha => ?_, fun hb => ?_, fun hc hd => ?_, rfl⟩ <;>
    first
      | rfl
      | (exfalso; simp_all; linarith)
      | (exfalso; simp_all)

/-- Witness for C10 at the concrete body beyond the left wrap bound. -/
theorem C10_screen_wrap_witness :
    (screenWrap wrapPlayer 400).x = 400 + wrapPlayer.width :=
  (C10_screen_wrap wrapPlayer 400 (by norm_num) (by norm_num [wrapPlayer])).1
    (by norm_num [wrapPlayer])

/-- C7: a hit on a DoubleJumpCharger sets the charge flag, converts that
platform to NORMAL in the same resolution, leaves the base jump impulse in
place, and emits Landed then PoweredUp; a subsequent hit on the resulting
platform behaves exactly as a NORMAL landing: only `vy` is set, the flag
and the platform are untouched and only a Landed effect is emitted. -/
theorem C7_charger_consumption (player : Player) (p : Platform)
    (hty : p.type = PlatformType.DOUBLE_JUMP_CHARGER) :
    (resolveHit player p).1.hasDoubleJump = true ∧
    (resolveHit player p).2.1 = { p with type := PlatformType.NORMAL } ∧
    (resolveHit player p).1.vy = JUMP_FORCE ∧
    (resolveHit player p).2.2 = [Effect.Landed, Effect.PoweredUp] ∧
    (∀ q : Player,
      (resolveHit q (resolveHit player p).2.1).1 = { q with vy := JUMP_FORCE } ∧
      (resolveHit q (resolveHit player p).2.1).2.1 = (resolveHit player p).2.1 ∧
      (resolveHit q (resolveHit player p).2.1).2.2 = [Effect.Landed]) := by
  unfold resolveHit
  simp [hty]

/-- Witness for C7 at the concrete charger platform. -/
theorem C7_charger_consumption_witness :
    (resolveHit chargedPlayer chargerPlat).1.hasDoubleJump = true ∧
    (resolveHit chargedPlayer chargerPlat).2.1 =
      { chargerPlat with type := PlatformType.NORMAL } :=
  ⟨(C7_charger_consumption chargedPlayer chargerPlat rfl).1,
   (C7_charger_consumption chargedPlayer chargerPlat rfl).2.1⟩

/-- A platform update never changes the type tag. -/
theorem Platform.update_type (p : Platform) (width sinVal : ℚ) :
    (p.update width sinVal).type = p.type := by
  unfold Platform.update
  cases h : p.type <;> dsimp only <;> split_ifs <;> rfl

/-- A platform update never changes the shrink rate. -/
theorem Platform.update_shrinkRate (p : Platform) (width sinVal : ℚ) :
    (p.update width sinVal).shrinkRate = p.shrinkRate := by
  unfold Platform.update
  cases h : p.type <;> dsimp only <;> split_ifs <;> rfl

/-- A non-Shrinking platform update never changes the radius, and the
Shrinking update clamps `radius - shrinkRate` at 0. -/
theorem Platform.update_radius (p : Platform) (width sinVal : ℚ) :
    (p.update width sinVal).radius =
      if p.type = PlatformType.SHRINKING then
        (if p.radius - p.shrinkRate < 0 then 0 else p.radius - p.shrinkRate)
      else p.radius := by
  unfold Platform.update
  cases h : p.type <;> dsimp only <;> split_ifs <;> simp_all

/-- A Shrinking platform below the collidable threshold is not collidable. -/
theorem isCollidable_shrunk (p : Platform)
    (ht : p.type = PlatformType.SHRINKING) (hr : p.radius < 10) :
    p.isCollidable = false := by
  unfold Platform.isCollidable
  split_ifs <;> simp_all

/-- C9: radius ≥ 0 is preserved by every platform update (the Shrinking
rule decrements by the shrink rate and clamps at 0); a Shrinking platform
whose radius has fallen below the collidable threshold 10 is non-collidable
and — since the radius never grows — stays non-collidable forever after. -/
theorem C9_shrinking_radius (p : Platform) (width sinVal : ℚ) :
    (0 ≤ p.radius → 0 ≤ (p.update width sinVal).radius) ∧
    (p.type = PlatformType.SHRINKING →
      (p.update width sinVal).radius =
        if p.radius - p.shrinkRate < 0 then 0 else p.radius - p.shrinkRate) ∧
    (p.type = PlatformType.SHRINKING → p.radius < 10 → p.isCollidable = false) ∧
    (p.type = PlatformType.SHRINKING → 0 ≤ p.shrinkRate → p.radius < 10 →
      ∀ n : ℕ, ((fun q : Platform => q.update width sinVal)^[n] p).isCollidable = false) := by
  refine ⟨?_, ?_, fun ht hr => isCollidable_shrunk p ht hr, ?_⟩
  · intro h0
    rw [Platform.update_radius]
    split_ifs <;> linarith
  · intro ht
    rw [Platform.update_radius, if_pos ht]
  · intro ht hrate hr n
    induction n generalizing p with
    | zero => exact isCollidable_shrunk p ht hr
    | succ k ih =>
        rw [Function.iterate_succ_apply]
        refine ih _ ?_ ?_ ?_
        · rw [Platform.update_type]; exact ht
        · rw [Platform.update_shrinkRate]; exact hrate
        · rw [Platform.update_radius, if_pos ht]
          split_ifs <;> linarith

/-- Witness for C9 at the concrete shrunken platform. -/
theorem C9_shrinking_radius_witness :
    0 ≤ (shrunkPlat.update 400 0).radius ∧
    (shrunkPlat.update 400 0).isCollidable = false :=
  ⟨(C9_shrinking_radius shrunkPlat 400 0).1 (by norm_num [shrunkPlat]),
   (C9_shrinking_radius shrunkPlat 400 0).2.2.2 rfl (by norm_num [shrunkPlat])
     (by norm_num [shrunkPlat]) 1⟩

/-- C1 counterexample: at true distance 5 from the black hole's center —
inside the pull radius and below the core epsilon 15 — the tick does set
the terminal condition, but the inverse-square attraction force is still
computed and applied: the body's velocity changes (vx drops by
(3/5)·(800/25) = 96/5), contradicting the claim that sub-epsilon distances
skip the force computation. -/
theorem C1_black_hole_counterexample :
    (0:ℚ) < 5 ∧ (5:ℚ) < 15 ∧
    (5:ℚ) * 5 = (bhPlayer.x - bhObstacle.x)^2 + (bhPlayer.y - bhObstacle.y)^2 ∧
    (blackHoleStep bhPlayer bhObstacle 5).2.2 = true ∧
    (blackHoleStep bhPlayer bhObstacle 5).1.vx ≠ bhPlayer.vx ∧
    (blackHoleStep bhPlayer bhObstacle 5).1.vx = -(96/5) := by
  norm_num [blackHoleStep, blackHolePull, bhPlayer, bhObstacle]

/-- C1 (amended): for every distance in (0, 15) the BLACK_HOLE interaction
sets the terminal condition and emits the destruction effect, but — because
the core check comes after, not instead of, the pull branch, and 15 < 250 —
the inverse-square force strength/dist² is still evaluated and applied to
the body's velocity at that sub-epsilon distance. -/
theorem C1_black_hole (player : Player) (o : Obstacle) (dist : ℚ)
    (h0 : 0 < dist) (h15 : dist < 15) :
    (blackHoleStep player o dist).2.2 = true ∧
    (blackHoleStep player o dist).2.1 = [Effect.Destroyed] ∧
    (blackHoleStep player o dist).1.vx =
      player.vx - (player.x - o.x) / dist * (800 / (dist * dist)) ∧
    (blackHoleStep player o dist).1.vy =
      player.vy - (player.y - o.y) / dist * (800 / (dist * dist)) ∧
    (blackHoleStep player o dist).1.rotation = player.rotation + 1/10 := by
  have h250 : dist < 250 := by linarith
  unfold blackHoleStep blackHolePull
  rw [if_pos h250, if_pos h15]
  simp

/-- Witness for the amended C1 at the concrete body at distance 5. -/
theorem C1_black_hole_witness :
    (blackHoleStep bhPlayer bhObstacle 5).2.2 = true ∧
    (blackHoleStep bhPlayer bhObstacle 5).1.vx =
      bhPlayer.vx - (bhPlayer.x - bhObstacle.x) / 5 * (800 / (5 * 5)) :=
  ⟨(C1_black_hole bhPlayer bhObstacle 5 (by norm_num) (by norm_num)).1,
   (C1_black_hole bhPlayer bhObstacle 5 (by norm_num) (by norm_num)).2.2.1⟩

/-- Every hit resolution emits exactly one Landed effect. -/
theorem resolveHit_landed_count (q : Player) (p : Platform) :
    (resolveHit q p).2.2.count Effect.Landed = 1 := by
  unfold resolveHit
  dsimp only
  split_ifs <;> rfl

/-- A hit resolution sets (not accumulates) the jump impulse: the resulting
vertical velocity is the boost impulse on a BOOST platform and the base
jump impulse otherwise, independent of the incoming velocity. -/
theorem resolveHit_vy (q : Player) (p : Platform) :
    (resolveHit q p).1.vy =
      if p.type = PlatformType.BOOST then SUPER_JUMP_FORCE else JUMP_FORCE := by
  unfold resolveHit
  dsimp only
  split_ifs <;> simp_all

/-- A hit on a NORMAL platform only sets the base jump impulse and emits a
single landing effect. -/
theorem resolveHit_normal (q : Player) (p : Platform)
    (h : p.type = PlatformType.NORMAL) :
    resolveHit q p = ({ q with vy := JUMP_FORCE }, p, [Effect.Landed]) := by
  unfold resolveHit
  simp [h]

/-- Resolution of a two-platform collision loop in which both tests pass in
sequence: both platforms are resolved, in list order. -/
theorem collisionTick_pair (player : Player) (p1 p2 : Platform)
    (hvy : player.vy > 0)
    (h1 : hitTest player p1 = true)
    (h2 : hitTest (resolveHit player p1).1 p2 = true) :
    collisionTick player [p1, p2] =
      ((resolveHit (resolveHit player p1).1 p2).1,
       [(resolveHit player p1).2.1, (resolveHit (resolveHit player p1).1 p2).2.1],
       (resolveHit player p1).2.2 ++ ((resolveHit (resolveHit player p1).1 p2).2.2 ++ [])) := by
  unfold collisionTick
  rw [if_pos hvy]
  simp only [collisionPhase, collisionStep, h1, h2, if_true, List.append_nil]

/-- C2 counterexample: the body descends (vy = 10 > 0) over two identical
overlapping collidable platforms, both of which satisfy the geometric
landing test simultaneously; the collision loop nevertheless resolves BOTH
platforms in the same tick, emitting two landing effects instead of exactly
one — the loop has no first-match-wins cutoff, and the second platform's
swept check passes again against the updated (upward) velocity. -/
theorem C2_single_hit_counterexample :
    ovPlayer.vy > 0 ∧
    hitTest ovPlayer ovPlat = true ∧
    hitTest (resolveHit ovPlayer ovPlat).1 ovPlat = true ∧
    (collisionTick ovPlayer [ovPlat, ovPlat]).2.2 = [Effect.Landed, Effect.Landed] ∧
    ¬ (collisionTick ovPlayer [ovPlat, ovPlat]).2.2.count Effect.Landed = 1 := by
  have hres : resolveHit ovPlayer ovPlat =
      ({ ovPlayer with vy := JUMP_FORCE }, ovPlat, [Effect.Landed]) :=
    resolveHit_normal ovPlayer ovPlat rfl
  have h1 : hitTest ovPlayer ovPlat = true := by
    norm_num [hitTest, Platform.isCollidable, ovPlayer, ovPlat]
  have h2 : hitTest (resolveHit ovPlayer ovPlat).1 ovPlat = true := by
    rw [hres]
    norm_num [hitTest, Platform.isCollidable, ovPlayer, ovPlat, JUMP_FORCE]
  have hloop := collisionTick_pair ovPlayer ovPlat ovPlat (by norm_num [ovPlayer]) h1 h2
  refine ⟨by norm_num [ovPlayer], h1, h2, ?_, ?_⟩ <;>
    rw [hloop] <;>
    simp [resolveHit_normal, ovPlat] <;>
    decide

/-- C2 (amended): the collision loop visits the platforms in list order and
resolves EVERY platform whose test passes against the player state left by
the earlier resolutions: with two platforms whose tests pass in sequence,
both are resolved in the same tick, two landing effects are emitted, and
the jump impulse is set (to the impulse of the last resolved platform), not
accumulated. -/
theorem C2_collision_loop (player : Player) (p1 p2 : Platform)
    (hvy : player.vy > 0)
    (h1 : hitTest player p1 = true)
    (h2 : hitTest (resolveHit player p1).1 p2 = true) :
    (collisionTick player [p1, p2]).1 = (resolveHit (resolveHit player p1).1 p2).1 ∧
    (collisionTick player [p1, p2]).2.1 =
      [(resolveHit player p1).2.1, (resolveHit (resolveHit player p1).1 p2).2.1] ∧
    (collisionTick player [p1, p2]).2.2 =
      (resolveHit player p1).2.2 ++ (resolveHit (resolveHit player p1).1 p2).2.2 ∧
    (collisionTick player [p1, p2]).2.2.count Effect.Landed = 2 ∧
    (collisionTick player [p1, p2]).1.vy =
      (if p2.type = PlatformType.BOOST then SUPER_JUMP_FORCE else JUMP_FORCE) := by
  have hloop := collisionTick_pair player p1 p2 hvy h1 h2
  rw [hloop]
  refine ⟨rfl, rfl, by simp, ?_, ?_⟩
  · simp [List.count_append, resolveHit_landed_count]
  · simpa using resolveHit_vy (resolveHit player p1).1 p2

/-- Witness for the amended C2 at the concrete overlapping platforms. -/
theorem C2_collision_loop_witness :
    (collisionTick ovPlayer [ovPlat, ovPlat]).2.2.count Effect.Landed = 2 :=
  (C2_collision_loop ovPlayer ovPlat ovPlat (by norm_num [ovPlayer])
    (by norm_num [hitTest, Platform.isCollidable, ovPlayer, ovPlat])
    (by rw [resolveHit_normal ovPlayer ovPlat rfl]
        norm_num [hitTest, Platform.isCollidable, ovPlayer, ovPlat, JUMP_FORCE])).2.2.2.1

/-- C4: in the spec's no-tunneling scenario (platform at y = 500 with
radius 30, body horizontally aligned, falling at vy = 40 from y = 460), a
single tick registers a landing: after the integration step the body is
descending, the swept vertical-band test passes (the foot was above the
surface before applying vy and below it after), and the collision phase
resolves the landing, emitting exactly one landing effect and setting the
jump impulse — the body does not pass through. -/
theorem C4_no_tunneling :
    ntPlayerMoved.y = 500 ∧
    ntPlayerMoved.vy > 0 ∧
    hitTest ntPlayerMoved ntPlat = true ∧
    (collisionTick ntPlayerMoved [ntPlat]).2.2 = [Effect.Landed] ∧
    (collisionTick ntPlayerMoved [ntPlat]).1.vy = JUMP_FORCE := by
  have hmoved : ntPlayerMoved =
      { x := 200, y := 500, vx := 0, vy := 1002/25, rotation := 0 } := by
    unfold ntPlayerMoved ntPlayer Player.update
    norm_num [ACCEL, FRICTION, GRAVITY]
  have hhit : hitTest ntPlayerMoved ntPlat = true := by
    rw [hmoved]
    norm_num [hitTest, Platform.isCollidable, ntPlat]
  have hvy : ntPlayerMoved.vy > 0 := by rw [hmoved]; norm_num
  refine ⟨by rw [hmoved], hvy, hhit, ?_, ?_⟩ <;>
    · unfold collisionTick
      rw [if_pos hvy]
      simp only [collisionPhase, collisionStep, hhit, if_true, List.append_nil]
      simp [resolveHit_normal, ntPlat]

/-- Pointwise description of the star scroll: star i moves down by
`diff * speed` and wraps (with a fresh random x) when pushed past the
bottom. -/
theorem scrollStars_get? (height diff : ℚ) (randX : ℕ → ℚ) :
    ∀ (l : List BgStar) (k i : ℕ),
      (scrollStars height diff randX k l).get? i =
        (l.get? i).map (fun s =>
          if s.y + diff * s.speed > height then
            { s with y := s.y + diff * s.speed - height, x := randX (k + i) }
          else { s with y := s.y + diff * s.speed })
  | [], k, i => by simp [scrollStars]
  | s :: rest, k, 0 => by
      simp only [scrollStars, List.get?, Option.map]
      split_ifs <;> simp_all
  | s :: rest, k, (i+1) => by
      simp only [scrollStars, List.get?]
      rw [scrollStars_get? height diff randX rest (k+1) i]
      have hk : k + 1 + i = k + (i + 1) := by omega
      simp only [hk]

/-- The score delta of the camera-follow step: the overshoot when the body
is above the 45% line, zero otherwise. -/
theorem cameraScroll_score (w : World) (orc : Oracle) :
    (cameraScroll w orc).score =
      if w.player.y < w.height * (9/20) then w.score + (w.height * (9/20) - w.player.y)
      else w.score := by
  unfold cameraScroll
  split_ifs with h <;> rfl

/-- The camera-follow step never decreases the score. -/
theorem score_le_cameraScroll (v : World) (orc : Oracle) :
    v.score ≤ (cameraScroll v orc).score := by
  rw [cameraScroll_score]
  split_ifs with h <;> linarith

/-- The generation request only ever appends: the first `platforms.length`
platforms (and the first `obstacles.length` obstacles) are returned
unchanged. -/
theorem genAfterScroll_take (orc : Oracle) (score : ℚ)
    (platforms : List Platform) (obstacles : List Obstacle) :
    (genAfterScroll orc score platforms obstacles).1.take platforms.length = platforms ∧
    (genAfterScroll orc score platforms obstacles).2.take obstacles.length = obstacles := by
  unfold genAfterScroll
  cases hmin : (platforms.map Platform.y).min? with
  | none => simp
  | some hy =>
      dsimp only
      split_ifs with h50
      · exact ⟨List.take_left platforms _, List.take_left obstacles _⟩
      · simp

/-- C3 counterexample: in a 400×800 world whose body is 60 above the 45%
line, the scroll branch fires with overshoot diff = 60, but the single
background star (parallax speed 1/2) moves down by 30, not by 60 — stars
are translated by `diff * speed`, not by the overshoot itself. -/
theorem C3_camera_scroll_counterexample :
    starWorld.player.y < starWorld.height * (9/20) ∧
    starWorld.height * (9/20) - starWorld.player.y = 60 ∧
    (cameraScroll starWorld zeroOracle).stars =
      [{ slowStar with y := slowStar.y + 30 }] ∧
    (cameraScroll starWorld zeroOracle).stars ≠
      starWorld.stars.map (fun s => { s with y := s.y + 60 }) := by
  have hstars : (cameraScroll starWorld zeroOracle).stars =
      [{ slowStar with y := slowStar.y + 30 }] := by
    unfold cameraScroll
    rw [if_pos (by norm_num [starWorld])]
    show scrollStars starWorld.height (starWorld.height * (9/20) - starWorld.player.y)
        zeroOracle.starX 0 starWorld.stars = _
    norm_num [scrollStars, starWorld, slowStar, zeroOracle]
  refine ⟨by norm_num [starWorld], by norm_num [starWorld], hstars, ?_⟩
  rw [hstars]
  norm_num [starWorld, slowStar]

/-- C3 (amended): when the body rises above the 45% line the overshoot
`diff = 0.45·height − y` is computed, the body is clamped back to the line,
every pre-existing platform, hazard and particle has its y increased by
exactly `diff` with no other field changed, the score grows by `diff` —
but each star's y grows by `diff · speed` (its parallax factor), and a star
pushed past the bottom additionally wraps up by one screen height and
respawns at a random x. -/
theorem C3_camera_scroll (w : World) (orc : Oracle)
    (h : w.player.y < w.height * (9/20)) :
    (cameraScroll w orc).player.y = w.height * (9/20) ∧
    (cameraScroll w orc).platforms.take w.platforms.length =
      w.platforms.map (fun p => { p with y := p.y + (w.height * (9/20) - w.player.y) }) ∧
    (cameraScroll w orc).obstacles.take w.obstacles.length =
      w.obstacles.map (fun o => { o with y := o.y + (w.height * (9/20) - w.player.y) }) ∧
    (cameraScroll w orc).particles =
      w.particles.map (fun p => { p with y := p.y + (w.height * (9/20) - w.player.y) }) ∧
    (cameraScroll w orc).score = w.score + (w.height * (9/20) - w.player.y) ∧
    (∀ i s, w.stars.get? i = some s →
      (cameraScroll w orc).stars.get? i = some (
        if s.y + (w.height * (9/20) - w.player.y) * s.speed > w.height then
          { s with y := s.y + (w.height * (9/20) - w.player.y) * s.speed - w.height,
                   x := orc.starX i }
        else { s with y := s.y + (w.height * (9/20) - w.player.y) * s.speed })) := by
  unfold cameraScroll
  rw [if_pos h]
  refine ⟨rfl, ?_, ?_, rfl, rfl, ?_⟩
  · show (genAfterScroll orc _
        (w.platforms.map (fun p => { p with y := p.y + (w.height * (9/20) - w.player.y) }))
        (w.obstacles.map (fun o => { o with y := o.y + (w.height * (9/20) - w.player.y) }))).1.take
          w.platforms.length = _
    rw [show w.platforms.length =
        (w.platforms.map (fun p => { p with y := p.y + (w.height * (9/20) - w.player.y) })).length
      from (List.length_map _ _).symm]
    exact (genAfterScroll_take _ _ _ _).1
  · show (genAfterScroll orc _
        (w.platforms.map (fun p => { p with y := p.y + (w.height * (9/20) - w.player.y) }))
        (w.obstacles.map (fun o => { o with y := o.y + (w.height * (9/20) - w.player.y) }))).2.take
          w.obstacles.length = _
    rw [show w.obstacles.length =
        (w.obstacles.map (fun o => { o with y := o.y + (w.height * (9/20) - w.player.y) })).length
      from (List.length_map _ _).symm]
    exact (genAfterScroll_take _ _ _ _).2
  · intro i s hs
    show (scrollStars w.height (w.height * (9/20) - w.player.y) orc.starX 0 w.stars).get? i = _
    rw [scrollStars_get?, hs]
    simp

/-- Witness for the amended C3 at the concrete star world. -/
theorem C3_camera_scroll_witness :
    (cameraScroll starWorld zeroOracle).player.y = starWorld.height * (9/20) ∧
    (cameraScroll starWorld zeroOracle).score =
      starWorld.score + (starWorld.height * (9/20) - starWorld.player.y) :=
  ⟨(C3_camera_scroll starWorld zeroOracle (by norm_num [starWorld])).1,
   (C3_camera_scroll starWorld zeroOracle (by norm_num [starWorld])).2.2.2.2.1⟩

/-- C6: score is monotonically non-decreasing across full ticks — the only
step of the tick that touches the score is the camera-follow step, which
adds the overshoot; the overshoot is strictly positive whenever the scroll
branch fires (the body strictly above the 45% line), and the score is left
exactly unchanged when it does not. -/
theorem C6_monotonic_score (w : World) (input : Input) (orc : Oracle) :
    w.score ≤ (tick w input orc).1.score ∧
    (∀ v : World, v.player.y < v.height * (9/20) →
      (cameraScroll v orc).score = v.score + (v.height * (9/20) - v.player.y) ∧
      v.score < (cameraScroll v orc).score) ∧
    (∀ v : World, ¬ v.player.y < v.height * (9/20) →
      (cameraScroll v orc).score = v.score) := by
  refine ⟨?_, ?_, ?_⟩
  · exact score_le_cameraScroll
      { w with
        player := screenWrap
          (obstaclePhase w.width orc 0 (w.player.update input) w.obstacles).1 w.width
        platforms := (w.platforms.zip (List.range w.platforms.length)).map
          (fun pi => pi.1.update w.width (orc.sinPlat pi.2))
        obstacles := (obstaclePhase w.width orc 0 (w.player.update input) w.obstacles).2.1 }
      orc
  · intro v hv
    rw [cameraScroll_score, if_pos hv]
    constructor
    · rfl
    · linarith
  · intro v hv
    rw [cameraScroll_score, if_neg hv]

/-- Witness for C6 at the concrete star world (strict increase on scroll). -/
theorem C6_monotonic_score_witness :
    starWorld.score < (cameraScroll starWorld zeroOracle).score :=
  ((C6_monotonic_score starWorld ⟨false, false⟩ zeroOracle).2.1 starWorld
    (by norm_num [starWorld])).2
